import Mathlib

/-!
Shallow embedding of the "memory bot" game engine
(`src/memory bot/game_logic.py` and `src/memory bot/main.py`).

Python machine model used throughout:
* Python `int` is unbounded, embedded as `Int`.
* Python `float` literals and arithmetic in `get_time_for_level` are embedded
  as exact rationals (`Rat`); every constant in the source (15.0 .. 1.0, 0.1)
  is exactly the rational its decimal literal denotes.
* Python strings are embedded as Lean `String`; `str.strip()` and
  `str.isdigit()` are modelled over the ASCII whitespace/digit ranges the
  game actually uses.
* The three free-string states "IDLE", "SHOWING_NUMBER", "WAITING_INPUT"
  become the closed enumeration `SessState`.
* `random.randint(0, 9)` results are passed in explicitly: an operation that
  draws six digits takes a `DigitSeq` argument.
Only mutations of the per-user `GameSession` are modelled; message sending,
chat cleanup and the Telegram framework are presentation-side effects with no
bearing on the session fields.
-/

namespace MemoryBot

/-- The three values the Python code stores in `GameSession.state`. -/
inductive SessState where
  | IDLE
  | SHOWING_NUMBER
  | WAITING_INPUT
deriving DecidableEq, Repr

/-- Result values of `GameSession.next_round` ("NEXT_ROUND" / "LEVEL_COMPLETE"). -/
inductive RoundStatus where
  | NEXT_ROUND
  | LEVEL_COMPLETE
deriving DecidableEq, Repr

/-- Six results of `random.randint(0, 9)`, the randomness consumed by
`start_new_round`. -/
structure DigitSeq where
  d1 : Fin 10
  d2 : Fin 10
  d3 : Fin 10
  d4 : Fin 10
  d5 : Fin 10
  d6 : Fin 10
deriving DecidableEq, Repr

/-- Python `str(d)` for `d` in `0..9`: the single ASCII digit character. -/
def digitChar (d : Fin 10) : Char := Char.ofNat (48 + d.val)

/-- `"".join([str(randint(0,9)) for _ in range(6)])` with the six draws given. -/
def digitsToString (ds : DigitSeq) : String :=
  ⟨[digitChar ds.d1, digitChar ds.d2, digitChar ds.d3,
    digitChar ds.d4, digitChar ds.d5, digitChar ds.d6]⟩

/-- ASCII whitespace stripped by Python `str.strip()`. -/
def pyIsSpace (c : Char) : Bool :=
  c == ' ' || c == '\t' || c == '\n' || c == '\r' ||
  c == Char.ofNat 11 || c == Char.ofNat 12

/-- Python `s.strip()`: drop leading and trailing whitespace. -/
def pyStrip (s : String) : String :=
  ⟨((s.data.dropWhile pyIsSpace).reverse.dropWhile pyIsSpace).reverse⟩

/-- Python `s.isdigit()` over ASCII: non-empty and every character a digit. -/
def pyIsDigit (s : String) : Bool :=
  !s.data.isEmpty && s.data.all (fun c => c.isDigit)

/-- `GameSession.max_rounds`, set to 8 in `__init__` and never mutated. -/
def max_rounds : Int := 8

/-- The mutable fields of `game_logic.GameSession`. -/
structure GameSession where
  level : Int
  round : Int
  hearts : Int
  target_number : String
  current_time : Rat
  level_correct_count : Int
  state : SessState
deriving DecidableEq, Repr

/-- `GameSession.__init__`. -/
def initSession : GameSession :=
  { level := 1, round := 1, hearts := 3, target_number := "",
    current_time := 0, level_correct_count := 0, state := .IDLE }

/-- `GameSession.get_time_for_level`: table lookup for levels 1..12,
otherwise `max(0.1, 1.0 - (level - 12) * 0.1)`. -/
def get_time_for_level (level : Int) : Rat :=
  if level = 1 then 15.0
  else if level = 2 then 10.0
  else if level = 3 then 8.0
  else if level = 4 then 6.0
  else if level = 5 then 5.0
  else if level = 6 then 4.0
  else if level = 7 then 3.0
  else if level = 8 then 2.5
  else if level = 9 then 2.0
  else if level = 10 then 1.5
  else if level = 11 then 1.25
  else if level = 12 then 1.0
  else max 0.1 (1.0 - ((level : Rat) - 12) * 0.1)

/-- `GameSession.start_new_round` with the six random draws made explicit:
sets state to SHOWING_NUMBER, stores the fresh 6-digit target and the level's
time budget, and returns both. -/
def start_new_round (s : GameSession) (ds : DigitSeq) :
    (String × Rat) × GameSession :=
  let t := digitsToString ds
  let time := get_time_for_level s.level
  ((t, time),
   { s with state := .SHOWING_NUMBER, target_number := t, current_time := time })

/-- `GameSession.check_answer`: unconditionally sets state to IDLE; when the
stored target is non-empty (Python truthiness) and the stripped input equals
it, counts the answer correct and clears the target; otherwise deducts a
heart. -/
def check_answer (s : GameSession) (user_input : String) :
    Bool × GameSession :=
  if s.target_number ≠ "" ∧ pyStrip user_input = s.target_number then
    (true, { s with state := SessState.IDLE,
                    level_correct_count := s.level_correct_count + 1,
                    target_number := "" })
  else
    (false, { s with state := SessState.IDLE, hearts := s.hearts - 1 })

/-- `GameSession.next_round`: set state IDLE, increment round, report
LEVEL_COMPLETE when the incremented round exceeds `max_rounds`. -/
def next_round (s : GameSession) : RoundStatus × GameSession :=
  if s.round + 1 > max_rounds then
    (.LEVEL_COMPLETE, { s with state := SessState.IDLE, round := s.round + 1 })
  else
    (.NEXT_ROUND, { s with state := SessState.IDLE, round := s.round + 1 })

/-- `GameSession.advance_level`. -/
def advance_level (s : GameSession) : Int × GameSession :=
  (s.level + 1, { s with level := s.level + 1, round := 1,
                         level_correct_count := 0, hearts := 3 })

/-- `GameSession.reduce_level`. -/
def reduce_level (s : GameSession) : Bool × GameSession :=
  if s.level > 1 then
    (true, { s with level := s.level - 1, round := 1,
                    level_correct_count := 0, hearts := 3 })
  else (false, s)

/-- `GameSession.increase_level_manual`. -/
def increase_level_manual (s : GameSession) : Bool × GameSession :=
  (true, { s with level := s.level + 1, round := 1,
                  level_correct_count := 0, hearts := 3 })

/-- `GameSession.is_game_over`. -/
def is_game_over (s : GameSession) : Bool := s.hearts ≤ 0

/-- Session mutations of `main.handle_game_over` (main.py lines 262-269):
soft reset to level 1; note that `state` and `target_number` are untouched. -/
def handle_game_over (s : GameSession) : GameSession :=
  { s with level := 1, round := 1, hearts := 3, level_correct_count := 0 }

/-- Session mutations of the early-input branch of `main.check_input`
(main.py lines 154-175, entered when state is SHOWING_NUMBER): deduct a
heart; on game over run the soft reset (leaving state and target as they
were), otherwise set state IDLE. Either way a
`transition_to_next_round_delayed` task is created by the handler. -/
def earlyPath (s : GameSession) : GameSession :=
  if is_game_over { s with hearts := s.hearts - 1 } then
    handle_game_over { s with hearts := s.hearts - 1 }
  else { s with hearts := s.hearts - 1, state := SessState.IDLE }

/-- The trailing "Transition Logic" block of `main.check_input`
(main.py lines 228-249): no session mutation when the round is within
bounds; `advance_level` when the round counter has run past `max_rounds`. -/
def transitionBlock (s : GameSession) : GameSession :=
  if s.round > 1 ∧ s.round ≤ max_rounds then s
  else if s.round > max_rounds then (advance_level s).2
  else s

/-- Session mutations of the WAITING_INPUT part of `main.check_input`
(main.py lines 177-249): reject non-digit text untouched; otherwise judge via
`check_answer`; a correct answer advances the round and, on LEVEL_COMPLETE,
the level; a wrong answer runs the soft reset when the game is over and
otherwise advances the round and falls into the transition block. -/
def judgedPath (s : GameSession) (user_text : String) : GameSession :=
  if pyIsDigit user_text = false then s
  else if (check_answer s user_text).1 then
    if (next_round (check_answer s user_text).2).1 = RoundStatus.LEVEL_COMPLETE
    then (advance_level (next_round (check_answer s user_text).2).2).2
    else transitionBlock (next_round (check_answer s user_text).2).2
  else if is_game_over (check_answer s user_text).2 then
    handle_game_over (check_answer s user_text).2
  else transitionBlock (next_round (check_answer s user_text).2).2

/-- Session mutations of `main.check_input` (the MessageHandler): inputs are
ignored while IDLE; early inputs while SHOWING_NUMBER are penalised; inputs
while WAITING_INPUT are judged. -/
def check_input (s : GameSession) (user_text : String) : GameSession :=
  match s.state with
  | .IDLE => s
  | .SHOWING_NUMBER => earlyPath s
  | .WAITING_INPUT => judgedPath s user_text

/-- Session mutations of `main.start_round_execution`: just
`start_new_round` (arming the hide-timer has no session field). -/
def start_round_execution (s : GameSession) (ds : DigitSeq) : GameSession :=
  (start_new_round s ds).2

/-- Session mutations of `main.edit_message_job`, the timer action that hides
the number: sets state to WAITING_INPUT (unconditionally, for whatever
session is currently registered for the user). -/
def edit_message_job (s : GameSession) : GameSession :=
  { s with state := SessState.WAITING_INPUT }

/-- Session mutations of `main.transition_to_next_round_delayed`, run 2
seconds after an early-input penalty: nothing on game over; otherwise
`next_round` only when the state is (still) SHOWING_NUMBER, then a fresh
round. -/
def transition_to_next_round_delayed (s : GameSession) (ds : DigitSeq) :
    GameSession :=
  if is_game_over s then s
  else if s.state = SessState.SHOWING_NUMBER then
    start_round_execution (next_round s).2 ds
  else start_round_execution s ds

/-- The events that can mutate one user's session, at handler granularity:
the /start command, the three inline buttons, a text message, the hide-timer
firing, and the two deferred transition tasks the handlers create. -/
inductive Ev where
  | startCmd
  | pressStartRound (ds : DigitSeq)
  | pressLvlUp
  | pressLvlDown
  | textInput (txt : String)
  | timerFire
  | delayedTransition (ds : DigitSeq)
  | pacedNextRound (ds : DigitSeq)

/-- One atomic handler invocation. `pacedNextRound` is
`main.transition_to_next_round` (1-second pacing then a fresh round);
`delayedTransition` is `main.transition_to_next_round_delayed`. Timing of
the deferred tasks is over-approximated: an event may fire whenever its task
could be pending. -/
def step (s : GameSession) (e : Ev) : GameSession :=
  match e with
  | .startCmd => initSession
  | .pressStartRound ds => start_round_execution s ds
  | .pressLvlUp => (increase_level_manual s).2
  | .pressLvlDown => (reduce_level s).2
  | .textInput txt => check_input s txt
  | .timerFire => edit_message_job s
  | .delayedTransition ds => transition_to_next_round_delayed s ds
  | .pacedNextRound ds => start_round_execution s ds

/-- Run a list of events from a session. -/
def run (s : GameSession) (evs : List Ev) : GameSession :=
  evs.foldl step s

/-- Sessions reachable from a fresh `GameSession()` under any event
sequence. -/
inductive Reachable : GameSession → Prop where
  | init : Reachable initSession
  | step {s : GameSession} (e : Ev) : Reachable s → Reachable (step s e)

theorem reachable_run (evs : List Ev) : Reachable (run initSession evs) := by
  suffices h : ∀ s, Reachable s → Reachable (run s evs) from
    h initSession Reachable.init
  induction evs with
  | nil => exact fun s hs => hs
  | cons e tl ih => exact fun s hs => ih (step s e) (Reachable.step e hs)

/-! Concrete data used by the witnesses and counterexamples below. -/

/-- The shape `start_new_round` always gives `target_number`: six decimal
digit characters. -/
def SixDigitString (t : String) : Prop :=
  t.length = 6 ∧ ∀ c ∈ t.data, c.isDigit

/-- A fixed draw of six digits: the sequence "123456". -/
def ds0 : DigitSeq := ⟨1, 2, 3, 4, 5, 6⟩

/-- A session mid-round, waiting for the player's recall of "123456". -/
def sessWaiting : GameSession :=
  { level := 1, round := 1, hearts := 3, target_number := "123456",
    current_time := 15, level_correct_count := 0,
    state := SessState.WAITING_INPUT }

/-- A session while the sequence "123456" is on screen. -/
def sessShowing : GameSession :=
  { sessWaiting with state := SessState.SHOWING_NUMBER }

/-- One full correct round: start, timer hides the number, correct recall. -/
def correctRound (ds : DigitSeq) : List Ev :=
  [Ev.pressStartRound ds, Ev.timerFire, Ev.textInput (digitsToString ds)]

/-- Seven correct rounds bring `round` to 8; an early input during round 8's
display schedules the delayed transition; pressing "Run the Level" during the
2-second pacing delay re-enters SHOWING_NUMBER, so the pending delayed
transition then advances the round past `max_rounds` and starts round 9. -/
def toRound9 : List Ev :=
  correctRound ds0 ++ correctRound ds0 ++ correctRound ds0 ++
  correctRound ds0 ++ correctRound ds0 ++ correctRound ds0 ++
  correctRound ds0 ++
  [Ev.pressStartRound ds0, Ev.textInput "x", Ev.pressStartRound ds0,
   Ev.delayedTransition ds0]

/-! Field-level facts about the individual operations, used to assemble the
invariant proofs. -/

theorem ca_round (s : GameSession) (i : String) :
    ((check_answer s i).2).round = s.round := by
  unfold check_answer; split_ifs <;> rfl

theorem ca_state (s : GameSession) (i : String) :
    ((check_answer s i).2).state = SessState.IDLE := by
  unfold check_answer; split_ifs <;> rfl

theorem ca_hearts_true (s : GameSession) (i : String)
    (h : (check_answer s i).1 = true) :
    ((check_answer s i).2).hearts = s.hearts := by
  unfold check_answer at h ⊢; split_ifs at h ⊢ <;> simp_all

theorem ca_hearts_false (s : GameSession) (i : String)
    (h : (check_answer s i).1 = false) :
    ((check_answer s i).2).hearts = s.hearts - 1 := by
  unfold check_answer at h ⊢; split_ifs at h ⊢ <;> simp_all

theorem ca_target (s : GameSession) (i : String) :
    ((check_answer s i).2).target_number = s.target_number ∨
      ((check_answer s i).2).target_number = "" := by
  unfold check_answer; split_ifs <;> simp

theorem nr_round (s : GameSession) : ((next_round s).2).round = s.round + 1 := by
  unfold next_round; split_ifs <;> rfl

theorem nr_state (s : GameSession) : ((next_round s).2).state = SessState.IDLE := by
  unfold next_round; split_ifs <;> rfl

theorem nr_hearts (s : GameSession) : ((next_round s).2).hearts = s.hearts := by
  unfold next_round; split_ifs <;> rfl

theorem nr_target (s : GameSession) :
    ((next_round s).2).target_number = s.target_number := by
  unfold next_round; split_ifs <;> rfl

theorem al_round (s : GameSession) : ((advance_level s).2).round = 1 := rfl

theorem al_hearts (s : GameSession) : ((advance_level s).2).hearts = 3 := rfl

theorem al_target (s : GameSession) :
    ((advance_level s).2).target_number = s.target_number := rfl

theorem hg_round (s : GameSession) : (handle_game_over s).round = 1 := rfl

theorem hg_hearts (s : GameSession) : (handle_game_over s).hearts = 3 := rfl

theorem hg_target (s : GameSession) :
    (handle_game_over s).target_number = s.target_number := rfl

theorem sre_hearts (s : GameSession) (ds : DigitSeq) :
    (start_round_execution s ds).hearts = s.hearts := rfl

theorem sre_state (s : GameSession) (ds : DigitSeq) :
    (start_round_execution s ds).state = SessState.SHOWING_NUMBER := rfl

theorem sre_target (s : GameSession) (ds : DigitSeq) :
    (start_round_execution s ds).target_number = digitsToString ds := rfl

theorem tb_state (s : GameSession) : (transitionBlock s).state = s.state := by
  unfold transitionBlock advance_level; split_ifs <;> rfl

theorem tb_target (s : GameSession) :
    (transitionBlock s).target_number = s.target_number := by
  unfold transitionBlock advance_level; split_ifs <;> rfl

theorem tb_hearts (s : GameSession) :
    (transitionBlock s).hearts = s.hearts ∨ (transitionBlock s).hearts = 3 := by
  unfold transitionBlock advance_level; split_ifs <;> simp

theorem tb_round_bounds (s : GameSession) (h : 1 ≤ s.round) :
    1 ≤ (transitionBlock s).round ∧ (transitionBlock s).round ≤ max_rounds := by
  unfold transitionBlock advance_level max_rounds at *
  split_ifs <;> simp_all <;> omega

theorem dt_hearts (s : GameSession) (ds : DigitSeq) :
    (transition_to_next_round_delayed s ds).hearts = s.hearts := by
  unfold transition_to_next_round_delayed
  split_ifs <;> simp [sre_hearts, nr_hearts]

theorem digitsToString_spec (ds : DigitSeq) :
    SixDigitString (digitsToString ds) := by
  refine ⟨rfl, ?_⟩
  have h : ∀ d : Fin 10, (digitChar d).isDigit := by decide
  intro c hc
  simp only [digitsToString, String.data] at hc
  fin_cases hc <;> exact h _

/-! Facts about the composite early-input and judged paths. -/

theorem ep_hearts (s : GameSession) (h2 : s.hearts ≤ 3) :
    1 ≤ (earlyPath s).hearts ∧ (earlyPath s).hearts ≤ 3 := by
  unfold earlyPath handle_game_over is_game_over
  split_ifs with hg <;> simp_all <;> omega

theorem ep_state_target (s : GameSession) :
    earlyPath s = { s with hearts := s.hearts - 1, state := SessState.IDLE } ∨
    ((earlyPath s).state = s.state ∧
       (earlyPath s).target_number = s.target_number) := by
  unfold earlyPath handle_game_over
  split_ifs
  · right; exact ⟨rfl, rfl⟩
  · left; rfl

theorem jp_round_bounds (s : GameSession) (txt : String)
    (h1 : 1 ≤ s.round) (h2 : s.round ≤ max_rounds) :
    1 ≤ (judgedPath s txt).round ∧ (judgedPath s txt).round ≤ max_rounds := by
  unfold judgedPath
  split_ifs with hd hc hlc hgo
  · exact ⟨h1, h2⟩
  · simp [al_round, max_rounds]
  · exact tb_round_bounds _ (by rw [nr_round, ca_round]; omega)
  · simp [hg_round, max_rounds]
  · exact tb_round_bounds _ (by rw [nr_round, ca_round]; omega)

theorem jp_state (s : GameSession) (txt : String) :
    (judgedPath s txt).state = SessState.IDLE ∨ judgedPath s txt = s := by
  unfold judgedPath
  split_ifs
  · right; rfl
  · left
    show ((advance_level _).2).state = _
    rw [show ∀ t : GameSession, ((advance_level t).2).state = t.state from
          fun _ => rfl,
        nr_state]
  · left; rw [tb_state, nr_state]
  · left
    show (handle_game_over _).state = _
    rw [show ∀ t : GameSession, (handle_game_over t).state = t.state from
          fun _ => rfl,
        ca_state]
  · left; rw [tb_state, nr_state]

theorem jp_hearts (s : GameSession) (txt : String)
    (h1 : 1 ≤ s.hearts) (h2 : s.hearts ≤ 3) :
    1 ≤ (judgedPath s txt).hearts ∧ (judgedPath s txt).hearts ≤ 3 := by
  unfold judgedPath
  split_ifs with hd hc hlc hgo
  · exact ⟨h1, h2⟩
  · rw [al_hearts]; norm_num
  · rcases tb_hearts ((next_round (check_answer s txt).2).2) with h | h
    · rw [h, nr_hearts, ca_hearts_true s txt hc]; exact ⟨h1, h2⟩
    · rw [h]; norm_num
  · rw [hg_hearts]; norm_num
  · have hcf : (check_answer s txt).1 = false := by
      cases hb : (check_answer s txt).1
      · rfl
      · exact absurd hb hc
    have hh := ca_hearts_false s txt hcf
    have hgo' : ¬ ((check_answer s txt).2).hearts ≤ 0 := by
      simpa [is_game_over] using hgo
    rcases tb_hearts ((next_round (check_answer s txt).2).2) with h | h
    · rw [h, nr_hearts, hh]
      rw [hh] at hgo'
      omega
    · rw [h]; norm_num

/-! The two inductive invariants of the reachable states. -/

theorem heartsInv_step (s : GameSession) (e : Ev)
    (h1 : 1 ≤ s.hearts) (h2 : s.hearts ≤ 3) :
    1 ≤ (step s e).hearts ∧ (step s e).hearts ≤ 3 := by
  cases e with
  | startCmd => norm_num [step, initSession]
  | pressStartRound ds => rw [step, sre_hearts]; exact ⟨h1, h2⟩
  | pressLvlUp => norm_num [step, increase_level_manual]
  | pressLvlDown =>
      unfold step reduce_level
      split_ifs <;> first | exact ⟨h1, h2⟩ | norm_num
  | textInput txt =>
      rcases hs : s.state with _ | _ | _ <;> simp only [step, check_input, hs]
      · exact ⟨h1, h2⟩
      · exact ep_hearts s h2
      · exact jp_hearts s txt h1 h2
  | timerFire => exact ⟨h1, h2⟩
  | delayedTransition ds => rw [step, dt_hearts]; exact ⟨h1, h2⟩
  | pacedNextRound ds => rw [step, sre_hearts]; exact ⟨h1, h2⟩

theorem hearts_inv_reachable (s : GameSession) (h : Reachable s) :
    1 ≤ s.hearts ∧ s.hearts ≤ 3 := by
  induction h with
  | init => norm_num [initSession]
  | step e hr ih => exact heartsInv_step _ e ih.1 ih.2

theorem goodTarget_step (s : GameSession) (e : Ev)
    (ih : s.state = SessState.SHOWING_NUMBER → SixDigitString s.target_number) :
    (step s e).state = SessState.SHOWING_NUMBER →
      SixDigitString (step s e).target_number := by
  cases e with
  | startCmd =>
      intro hc
      simp [step, initSession] at hc
  | pressStartRound ds =>
      intro _
      rw [step, sre_target]
      exact digitsToString_spec ds
  | pressLvlUp =>
      intro hc
      exact ih hc
  | pressLvlDown =>
      unfold step reduce_level
      split_ifs
      · intro hc
        exact ih hc
      · intro hc
        exact ih hc
  | textInput txt =>
      rcases hs : s.state with _ | _ | _ <;> simp only [step, check_input, hs]
      · intro hc
        exact absurd hc (by decide)
      · rcases ep_state_target s with he | he
        · rw [he]
          intro hc
          simp at hc
        · intro hc
          rw [he.2]
          exact ih hs
      · rcases jp_state s txt with hj | hj
        · intro hc
          rw [hj] at hc
          simp at hc
        · rw [hj]
          intro hc
          rw [hs] at hc
          simp at hc
  | timerFire =>
      intro hc
      simp [step, edit_message_job] at hc
  | delayedTransition ds =>
      unfold step transition_to_next_round_delayed
      split_ifs
      · intro hc
        exact ih hc
      · intro _
        rw [sre_target]
        exact digitsToString_spec ds
      · intro _
        rw [sre_target]
        exact digitsToString_spec ds
  | pacedNextRound ds =>
      intro _
      rw [step, sre_target]
      exact digitsToString_spec ds

theorem showing_target_inv (s : GameSession) (h : Reachable s) :
    s.state = SessState.SHOWING_NUMBER → SixDigitString s.target_number := by
  induction h with
  | init => intro hc; simp [initSession] at hc
  | step e hr ih => exact goodTarget_step _ e ih

/-! Claim C1. -/

/-- C1, counterexample: the claim says a mismatching answer clears
`targetSequence`; in `check_answer` the else-branch leaves `target_number`
untouched. At the concrete waiting session holding "123456", submitting
"000000" is a mismatch, yet the claim's required postcondition
`target_number = ""` fails. -/
theorem check_answer_mismatch_claim_false :
    ¬ (∀ (s : GameSession) (input : String),
        s.state = SessState.WAITING_INPUT →
        ¬ (s.target_number ≠ "" ∧ pyStrip input = s.target_number) →
        (check_answer s input).2.target_number = "") := by
  intro h
  exact absurd (h sessWaiting "000000" rfl (by decide)) (by decide)

/-- C1, amended: in `WaitingInput`, `check_answer` compares the
whitespace-stripped input with `targetSequence`; on a match (which also
requires a non-empty stored target) it increments `levelCorrectCount`,
clears `targetSequence` and sets phase Idle; on a mismatch it decrements
`hearts` and sets phase Idle but leaves `targetSequence` unchanged. -/
theorem check_answer_ok (s : GameSession) (input : String)
    (h : s.state = SessState.WAITING_INPUT) :
    (s.target_number ≠ "" ∧ pyStrip input = s.target_number →
       check_answer s input =
         (true, { s with state := SessState.IDLE,
                         level_correct_count := s.level_correct_count + 1,
                         target_number := "" })) ∧
    (¬ (s.target_number ≠ "" ∧ pyStrip input = s.target_number) →
       check_answer s input =
         (false, { s with state := SessState.IDLE,
                          hearts := s.hearts - 1 })) := by
  constructor <;> intro hc <;> simp [check_answer, hc]

/-- C1, witness: the amended theorem applied to the waiting session holding
"123456" with the padded input " 123456 ". -/
theorem check_answer_ok_witness :
    sessWaiting.state = SessState.WAITING_INPUT ∧
    ((sessWaiting.target_number ≠ "" ∧
        pyStrip " 123456 " = sessWaiting.target_number →
        check_answer sessWaiting " 123456 " =
          (true, { sessWaiting with
                     state := SessState.IDLE,
                     level_correct_count :=
                       sessWaiting.level_correct_count + 1,
                     target_number := "" })) ∧
     (¬ (sessWaiting.target_number ≠ "" ∧
           pyStrip " 123456 " = sessWaiting.target_number) →
        check_answer sessWaiting " 123456 " =
          (false, { sessWaiting with
                      state := SessState.IDLE,
                      hearts := sessWaiting.hearts - 1 }))) :=
  ⟨rfl, check_answer_ok sessWaiting " 123456 " rfl⟩

/-! Claim C2. -/

/-- C2, counterexample: the claimed iff between a non-empty `targetSequence`
and an active phase fails in reachable states in both directions. After a
wrong answer the session is Idle with "123456" still stored; and when /start
replaces the session while the hide-timer of the old round is still armed,
the timer later fires on the fresh session, which becomes WaitingInput with
an empty target. -/
theorem target_iff_claim_false :
    (¬ ∀ s : GameSession, Reachable s →
        (s.target_number ≠ "" ↔
          (s.state = SessState.SHOWING_NUMBER ∨
           s.state = SessState.WAITING_INPUT))) ∧
    Reachable (run initSession
      [Ev.pressStartRound ds0, Ev.startCmd, Ev.timerFire]) ∧
    (run initSession
      [Ev.pressStartRound ds0, Ev.startCmd, Ev.timerFire]).state =
      SessState.WAITING_INPUT ∧
    (run initSession
      [Ev.pressStartRound ds0, Ev.startCmd, Ev.timerFire]).target_number =
      "" := by
  refine ⟨?_, reachable_run _, by decide, by decide⟩
  intro h
  have h1 := h (run initSession
      [Ev.pressStartRound ds0, Ev.timerFire, Ev.textInput "999999"])
    (reachable_run _)
  exact absurd (h1.mp (by decide)) (by decide)

/-- C2, amended: the direction that survives. In every reachable state, if
the phase is Showing then `targetSequence` is non-empty — in fact exactly
six decimal digit characters. -/
theorem showing_target_six_digits (s : GameSession) (h : Reachable s)
    (hs : s.state = SessState.SHOWING_NUMBER) :
    s.target_number ≠ "" ∧ s.target_number.length = 6 ∧
      ∀ c ∈ s.target_number.data, c.isDigit := by
  have h6 := showing_target_inv s h hs
  refine ⟨?_, h6.1, h6.2⟩
  intro he
  rw [he] at h6
  exact absurd h6.1 (by decide)

/-- C2, witness: the amended theorem applied to the state reached by
pressing "Run the Level" once from a fresh session. -/
theorem showing_target_six_digits_witness :
    Reachable (run initSession [Ev.pressStartRound ds0]) ∧
    (run initSession [Ev.pressStartRound ds0]).state =
      SessState.SHOWING_NUMBER ∧
    ((run initSession [Ev.pressStartRound ds0]).target_number ≠ "" ∧
     (run initSession [Ev.pressStartRound ds0]).target_number.length = 6 ∧
     ∀ c ∈ (run initSession [Ev.pressStartRound ds0]).target_number.data,
       c.isDigit) :=
  ⟨reachable_run _, by decide,
   showing_target_six_digits _ (reachable_run _) (by decide)⟩

/-! Claim C3. -/

/-- C3, counterexample: an early input while Showing neither clears
`targetSequence` (the penalty branch never touches it) nor leads to the
round being advanced by the delayed transition: the handler has already set
the phase to Idle, so `transition_to_next_round_delayed` skips its
`next_round` call and restarts the same round number. -/
theorem early_input_claim_false :
    (¬ ∀ (s : GameSession) (txt : String),
         s.state = SessState.SHOWING_NUMBER →
         (check_input s txt).target_number = "") ∧
    (¬ ∀ (s : GameSession) (txt : String) (ds : DigitSeq),
         s.state = SessState.SHOWING_NUMBER →
         is_game_over (check_input s txt) = false →
         (transition_to_next_round_delayed (check_input s txt) ds).round =
           s.round + 1) := by
  constructor
  · intro h
    exact absurd (h sessShowing "x" rfl) (by decide)
  · intro h
    exact absurd (h sessShowing "x" ds0 rfl (by decide)) (by decide)

/-- C3, amended: an early input while Showing decrements `hearts` by exactly
one and leaves `targetSequence` unchanged. When the session is not thereby
over, the phase becomes Idle and the delayed transition two time units later
starts a fresh round with the SAME round counter (no `advanceRound`). When
the session is over, the soft reset runs instead and the phase stays
Showing. -/
theorem early_input_ok (s : GameSession) (txt : String) (ds : DigitSeq)
    (h : s.state = SessState.SHOWING_NUMBER) :
    (check_input s txt).target_number = s.target_number ∧
    (s.hearts - 1 ≤ 0 →
       check_input s txt =
         { s with level := 1, round := 1, hearts := 3,
                  level_correct_count := 0 }) ∧
    (¬ s.hearts - 1 ≤ 0 →
       check_input s txt =
         { s with hearts := s.hearts - 1, state := SessState.IDLE } ∧
       transition_to_next_round_delayed (check_input s txt) ds =
         { s with hearts := s.hearts - 1,
                  state := SessState.SHOWING_NUMBER,
                  target_number := digitsToString ds,
                  current_time := get_time_for_level s.level }) := by
  obtain ⟨lv, rd, ht, tg, ct, lcc, st⟩ := s
  cases h
  by_cases hg : ht - 1 ≤ 0
  · refine ⟨?_, fun _ => ?_, fun hn => absurd hg hn⟩ <;>
      simp [check_input, earlyPath, is_game_over, handle_game_over, hg]
  · refine ⟨?_, fun hy => absurd hy hg, fun _ => ⟨?_, ?_⟩⟩ <;>
      simp [check_input, earlyPath, is_game_over, handle_game_over, hg,
            transition_to_next_round_delayed, start_round_execution,
            start_new_round]

/-- C3, witness: the amended theorem applied to the showing session with the
early input "hello" and the next draw "123456". -/
theorem early_input_ok_witness :
    sessShowing.state = SessState.SHOWING_NUMBER ∧
    ((check_input sessShowing "hello").target_number =
       sessShowing.target_number ∧
     (sessShowing.hearts - 1 ≤ 0 →
        check_input sessShowing "hello" =
          { sessShowing with level := 1, round := 1, hearts := 3,
                             level_correct_count := 0 }) ∧
     (¬ sessShowing.hearts - 1 ≤ 0 →
        check_input sessShowing "hello" =
          { sessShowing with hearts := sessShowing.hearts - 1,
                             state := SessState.IDLE } ∧
        transition_to_next_round_delayed
            (check_input sessShowing "hello") ds0 =
          { sessShowing with
              hearts := sessShowing.hearts - 1,
              state := SessState.SHOWING_NUMBER,
              target_number := digitsToString ds0,
              current_time := get_time_for_level sessShowing.level })) :=
  ⟨rfl, early_input_ok sessShowing "hello" ds0 rfl⟩

/-! Claim C4. -/

/-- C4, counterexample: `round` can exceed `max_rounds` in a reachable
state. Seven correct rounds reach round 8; an early input during round 8's
display schedules the delayed transition, the player presses "Run the Level"
during the 2-unit pacing delay, and the pending delayed transition then
calls `next_round` (round 9, its LEVEL_COMPLETE report is discarded) and
starts a round with round = 9 > 8. -/
theorem round_bound_claim_false :
    ¬ (∀ s : GameSession, Reachable s → s.round ≤ max_rounds) := by
  intro h
  exact absurd (h (run initSession toRound9) (reachable_run toRound9))
    (by decide)

/-- C4, amended: `next_round` increments `round` (also past `max_rounds`: it
only reports LEVEL_COMPLETE, exactly when the new round exceeds the limit,
and performs no further mutation), and the direct input handler
`check_input` does keep `round` within 1..`max_rounds`, handling level
completion in the same step; the global bound fails only through the delayed
penalty transition of the counterexample. -/
theorem next_round_ok (s : GameSession) :
    ((next_round s).2 =
       { s with state := SessState.IDLE, round := s.round + 1 } ∧
     ((next_round s).1 = RoundStatus.LEVEL_COMPLETE ↔
        max_rounds < s.round + 1)) ∧
    (∀ txt : String, 1 ≤ s.round → s.round ≤ max_rounds →
       1 ≤ (check_input s txt).round ∧
       (check_input s txt).round ≤ max_rounds) := by
  constructor
  · unfold next_round
    split_ifs with hc
    · exact ⟨rfl, by simp [hc]⟩
    · exact ⟨rfl, by simp [hc]⟩
  · intro txt h1 h2
    rcases hs : s.state with _ | _ | _ <;> simp only [check_input, hs]
    · exact ⟨h1, h2⟩
    · unfold earlyPath handle_game_over
      split_ifs
      · norm_num [max_rounds]
      · exact ⟨h1, h2⟩
    · exact jp_round_bounds s txt h1 h2

/-- C4, witness: the amended theorem applied to a fresh session and the
digit input "7". -/
theorem next_round_ok_witness :
    (1 ≤ initSession.round ∧ initSession.round ≤ max_rounds) ∧
    ((next_round initSession).2 =
       { initSession with state := SessState.IDLE,
                          round := initSession.round + 1 } ∧
     ((next_round initSession).1 = RoundStatus.LEVEL_COMPLETE ↔
        max_rounds < initSession.round + 1)) ∧
    (1 ≤ (check_input initSession "7").round ∧
     (check_input initSession "7").round ≤ max_rounds) :=
  ⟨⟨by decide, by decide⟩, (next_round_ok initSession).1,
   (next_round_ok initSession).2 "7" (by decide) (by decide)⟩

/-! Claim C6. -/

/-- Helper for C6: above the table, the display time is the clamped linear
formula. -/
theorem get_time_formula_of_gt (l : Int) (h : 12 < l) :
    get_time_for_level l = max 0.1 (1.0 - ((l : Rat) - 12) * 0.1) := by
  unfold get_time_for_level
  rw [if_neg (by omega : ¬ l = 1), if_neg (by omega : ¬ l = 2),
      if_neg (by omega : ¬ l = 3), if_neg (by omega : ¬ l = 4),
      if_neg (by omega : ¬ l = 5), if_neg (by omega : ¬ l = 6),
      if_neg (by omega : ¬ l = 7), if_neg (by omega : ¬ l = 8),
      if_neg (by omega : ¬ l = 9), if_neg (by omega : ¬ l = 10),
      if_neg (by omega : ¬ l = 11), if_neg (by omega : ¬ l = 12)]

/-- C6: `get_time_for_level` returns exactly the fixed table values for
levels 1..12, equals `max(0.1, 1.0 - (level-12)*0.1)` for levels above 12,
never goes below 0.1 for levels ≥ 1, and is monotonically non-increasing in
the level. Python floats are modelled as exact rationals. -/
theorem displayDuration_ok :
    (get_time_for_level 1 = 15.0 ∧ get_time_for_level 2 = 10.0 ∧
     get_time_for_level 3 = 8.0 ∧ get_time_for_level 4 = 6.0 ∧
     get_time_for_level 5 = 5.0 ∧ get_time_for_level 6 = 4.0 ∧
     get_time_for_level 7 = 3.0 ∧ get_time_for_level 8 = 2.5 ∧
     get_time_for_level 9 = 2.0 ∧ get_time_for_level 10 = 1.5 ∧
     get_time_for_level 11 = 1.25 ∧ get_time_for_level 12 = 1.0) ∧
    (∀ l : Int, 12 < l →
       get_time_for_level l = max 0.1 (1.0 - ((l : Rat) - 12) * 0.1)) ∧
    (∀ l : Int, 1 ≤ l → (0.1 : Rat) ≤ get_time_for_level l) ∧
    (∀ l : Int, 1 ≤ l →
       get_time_for_level (l + 1) ≤ get_time_for_level l) := by
  refine ⟨?_, get_time_formula_of_gt, ?_, ?_⟩
  · norm_num [get_time_for_level]
  · intro l h1
    by_cases h : 12 < l
    · rw [get_time_formula_of_gt l h]
      exact le_max_left _ _
    · have h2 : l ≤ 12 := by omega
      interval_cases l <;> norm_num [get_time_for_level]
  · intro l h1
    by_cases h : 12 < l
    · rw [get_time_formula_of_gt l h, get_time_formula_of_gt (l + 1) (by omega)]
      refine max_le_max le_rfl ?_
      have hc : ((l : Rat)) ≤ (((l + 1 : Int) : Rat)) := by push_cast; linarith
      nlinarith [hc]
    · have h2 : l ≤ 12 := by omega
      interval_cases l <;> norm_num [get_time_for_level]

/-- C6, witness: the formula at level 20, the floor at level 30, and
monotonicity across the 12 to 13 boundary. -/
theorem displayDuration_ok_witness :
    ((12 : Int) < 20 ∧
       get_time_for_level 20 =
         max 0.1 (1.0 - (((20 : Int) : Rat) - 12) * 0.1)) ∧
    ((1 : Int) ≤ 30 ∧ (0.1 : Rat) ≤ get_time_for_level 30) ∧
    ((1 : Int) ≤ 12 ∧
       get_time_for_level (12 + 1) ≤ get_time_for_level 12) :=
  ⟨⟨by norm_num, displayDuration_ok.2.1 20 (by norm_num)⟩,
   ⟨by norm_num, displayDuration_ok.2.2.1 30 (by norm_num)⟩,
   ⟨by norm_num, displayDuration_ok.2.2.2 12 (by norm_num)⟩⟩

/-! Claim C7. -/

/-- C7: while the phase is Idle, a text input is a no-op on the session:
`check_input` returns it unchanged (the handler returns before either
`submitEarly` or `submitAnswer` logic can run). -/
theorem check_input_idle_noop (s : GameSession) (txt : String)
    (h : s.state = SessState.IDLE) : check_input s txt = s := by
  obtain ⟨lv, rd, ht, tg, ct, lcc, st⟩ := s
  cases st
  · rfl
  · cases h
  · cases h

/-- C7, witness: a fresh session ignores the input "123456". -/
theorem check_input_idle_noop_witness :
    initSession.state = SessState.IDLE ∧
    check_input initSession "123456" = initSession :=
  ⟨rfl, check_input_idle_noop initSession "123456" rfl⟩

/-! Claim C8. -/

/-- C8: in every reachable state, `hearts` is non-negative; moreover no
reachable state is game-over at rest, because any operation whose decrement
reaches 0 runs the soft reset (level=1, round=1, hearts=3,
levelCorrectCount=0) within the same handler step, so no later operation
can push `hearts` below 0. -/
theorem hearts_never_negative (s : GameSession) (h : Reachable s) :
    0 ≤ s.hearts ∧ is_game_over s = false := by
  have h1 := hearts_inv_reachable s h
  refine ⟨by omega, ?_⟩
  show decide (s.hearts ≤ 0) = false
  exact decide_eq_false (by omega)

/-- C8, witness: the invariant at the initial session. -/
theorem hearts_never_negative_witness :
    Reachable initSession ∧
    (0 ≤ initSession.hearts ∧ is_game_over initSession = false) :=
  ⟨Reachable.init, hearts_never_negative initSession Reachable.init⟩

/-! Claim C9. -/

/-- C9: `start_new_round` never fails (so in particular it can only fail
when the phase is not Idle); it always stores and returns a 6-character
string of decimal digits, sets the phase to Showing, and returns
`get_time_for_level` of the current level as the duration. -/
theorem start_new_round_ok (s : GameSession) (ds : DigitSeq) :
    start_new_round s ds =
      ((digitsToString ds, get_time_for_level s.level),
       { s with state := SessState.SHOWING_NUMBER,
                target_number := digitsToString ds,
                current_time := get_time_for_level s.level }) ∧
    (digitsToString ds).length = 6 ∧
    (∀ c ∈ (digitsToString ds).data, c.isDigit) :=
  ⟨rfl, digitsToString_spec ds⟩

/-! Claim C10. -/

/-- C10: the automatic level advance and the manual level increase perform
identical session mutations: level+1, round=1, hearts=3,
levelCorrectCount=0 (they differ only in their returned value). -/
theorem advance_level_eq_increase_level_manual (s : GameSession) :
    (advance_level s).2 = (increase_level_manual s).2 := rfl

end MemoryBot
